import Mathlib

/-!
Verification of the SCMS dashboard core logic (alert classification,
filtering, district aggregation/ranking, gap analysis and KPI divisions),
shallowly embedded from the Python sources.  Ratios and index values are
modelled as rationals; integer-coded flags (0/1 columns) as integers.
-/

namespace SCMS

/-- A school record, with the columns the dashboard logic reads:
identification and location fields, the two pupil ratios
(`kpi_a1_student_classroom_ratio`, `kpi_a2_student_teacher_ratio`), the
infrastructure health index (`index_1_infrastructure_health_index`), the
0/1 flag columns (`m5_delayed_maintenance`, `s2_immediate_safety_concerns`,
`kpi_c1_fence_availability`) and the raw counts used by derived ratios. -/
structure Record where
  school : String
  location : String
  province : String
  district : String
  sector : String
  sc : ℚ          -- kpi_a1_student_classroom_ratio
  st : ℚ          -- kpi_a2_student_teacher_ratio
  infra : ℚ       -- index_1_infrastructure_health_index
  delayed : ℤ     -- m5_delayed_maintenance
  safety : ℤ      -- s2_immediate_safety_concerns
  fence : ℤ       -- kpi_c1_fence_availability
  students : ℚ    -- number_of_students
  teachers : ℚ    -- number_of_teachers
  classrooms : ℚ  -- number_of_classrooms
  deriving DecidableEq, Repr

/-- Classification outcome of the per-record if/elif cascade. -/
inductive Status where
  | urgent
  | attention
  | good
  deriving DecidableEq, Repr

/-- The URGENT test of `calculate_alerts` (1_overview.py / dash_simple.py):
`sc > 50 or st > 40 or infra < 0.5`. -/
def urgentCond (r : Record) : Prop :=
  r.sc > 50 ∨ r.st > 40 ∨ r.infra < 1/2

instance (r : Record) : Decidable (urgentCond r) := by
  unfold urgentCond; infer_instance

/-- The ATTENTION test of `calculate_alerts` (1_overview.py / dash_simple.py):
`45 < sc <= 50 or 35 < st <= 40 or 0.5 <= infra < 0.7 or delayed == 1 or
safety == 1 or fence == 0`. -/
def attentionCond (r : Record) : Prop :=
  (45 < r.sc ∧ r.sc ≤ 50) ∨ (35 < r.st ∧ r.st ≤ 40) ∨
  (1/2 ≤ r.infra ∧ r.infra < 7/10) ∨ r.delayed = 1 ∨ r.safety = 1 ∨ r.fence = 0

instance (r : Record) : Decidable (attentionCond r) := by
  unfold attentionCond; infer_instance

/-- The per-record if/elif/else cascade of `calculate_alerts`
(1_overview.py lines 144-182, dash_simple.py lines 126-154). -/
def classifyStep (r : Record) : Status :=
  if urgentCond r then .urgent
  else if attentionCond r then .attention
  else .good

/-- The `Issues` reason list built in the ATTENTION branch. -/
def attentionIssues (r : Record) : List String :=
  (if 45 < r.sc ∧ r.sc ≤ 50 then ["High S/C"] else []) ++
  (if 35 < r.st ∧ r.st ≤ 40 then ["High S/T"] else []) ++
  (if 1/2 ≤ r.infra ∧ r.infra < 7/10 then ["Med Infra"] else []) ++
  (if r.delayed = 1 then ["Delayed"] else []) ++
  (if r.safety = 1 then ["Safety"] else []) ++
  (if r.fence = 0 then ["No Fence"] else [])

/-- The `Why Good` reason list built in the GOOD branch. -/
def whyGood (r : Record) : List String :=
  (if r.sc ≤ 45 then ["S/C≤45"] else []) ++
  (if r.st ≤ 35 then ["S/T≤35"] else []) ++
  (if r.infra ≥ 7/10 then ["Infra≥0.7"] else [])

/-- The function `calculate_alerts` of 1_overview.py / dash_simple.py: one pass over the
records, each appended to the urgent, attention or good list according to
the cascade (empty input short-circuits to three empty lists). -/
def calculateAlerts : List Record → List Record × List Record × List Record
  | [] => ([], [], [])
  | r :: rest =>
    let (u, a, g) := calculateAlerts rest
    match classifyStep r with
    | .urgent => (r :: u, a, g)
    | .attention => (u, r :: a, g)
    | .good => (u, a, r :: g)

/-! ### The "final edition" `calculate_alerts` (src/unnamed/part_000) -/

/-- First-pass URGENT issue list of the final-edition `calculate_alerts`
(part_000 lines 122-133): dominant criteria only. -/
def urgentIssuesF (r : Record) : List String :=
  (if r.sc > 50 then ["S/C"] else []) ++
  (if r.st > 40 then ["S/T"] else []) ++
  (if r.infra < 1/2 then ["Infra"] else [])

/-- Second-pass ATTENTION issue list of the final-edition `calculate_alerts`
(part_000 lines 141-152). -/
def attnIssuesF (r : Record) : List String :=
  (if 45 < r.sc ∧ r.sc ≤ 50 then ["High S/C"] else []) ++
  (if 35 < r.st ∧ r.st ≤ 40 then ["High S/T"] else []) ++
  (if 1/2 ≤ r.infra ∧ r.infra < 7/10 then ["Medium Infra"] else []) ++
  (if r.delayed = 1 then ["Delayed Maint."] else []) ++
  (if r.safety = 1 then ["Safety"] else []) ++
  (if r.fence = 0 then ["No Fence"] else [])

/-- The `urgent` list built by the first pass: one `{'school', 'issues'}`
entry per record whose URGENT issue list is non-empty. -/
def urgentListF (data : List Record) : List (String × List String) :=
  (data.filter (fun r => urgentIssuesF r ≠ [])).map (fun r => (r.school, urgentIssuesF r))

/-- The `urgent_schools` set accumulated during the first pass. -/
def urgentSchoolsF (data : List Record) : Finset String :=
  ((data.filter (fun r => urgentIssuesF r ≠ [])).map (fun r => r.school)).toFinset

/-- The `attention` list built by the second pass: records whose school is
already in `urgent_schools` are skipped (`continue`), the rest contribute an
entry when their ATTENTION issue list is non-empty. -/
def attentionListF (data : List Record) : List (String × List String) :=
  (data.filter (fun r => r.school ∉ urgentSchoolsF data ∧ attnIssuesF r ≠ [])).map
    (fun r => (r.school, attnIssuesF r))

/-- The `attention_schools` set accumulated during the second pass. -/
def attentionSchoolsF (data : List Record) : Finset String :=
  ((data.filter (fun r => r.school ∉ urgentSchoolsF data ∧ attnIssuesF r ≠ [])).map
    (fun r => r.school)).toFinset

/-- Result shape of the final-edition `calculate_alerts`:
`{'urgent': ..., 'attention': ..., 'good': count}`. -/
structure AlertsFinal where
  urgent : List (String × List String)
  attention : List (String × List String)
  good : ℤ
  deriving DecidableEq, Repr

/-- Final-edition `calculate_alerts` (part_000 lines 112-168): empty input
short-circuits; otherwise the urgent and attention lists are truncated to
their first 5 entries and
`good_count = len(data) - len(urgent_schools) - len(attention_schools)`. -/
def calculateAlertsFinal (data : List Record) : AlertsFinal :=
  if data = [] then ⟨[], [], 0⟩
  else
    ⟨(urgentListF data).take 5, (attentionListF data).take 5,
     (data.length : ℤ) - (urgentSchoolsF data).card - (attentionSchoolsF data).card⟩

/-! ### `filter_data` (1_overview.py lines 186-204) -/

/-- One step of `filter_data`: Python's `if crit and crit != allName` guard —
the step filters only when the argument is present, truthy (non-empty
string) and not the "All X" sentinel. -/
def filterStep (crit : Option String) (allName : String) (proj : Record → String)
    (l : List Record) : List Record :=
  match crit with
  | none => l
  | some s => if s = "" ∨ s = allName then l else l.filter (fun r => proj r = s)

/-- Final step of `filter_data`: `if schools and len(schools) > 0` keeps the
records whose school name is in the selection. -/
def filterSchools (schools : Option (List String)) (l : List Record) : List Record :=
  match schools with
  | none => l
  | some sel => if sel = [] then l else l.filter (fun r => r.school ∈ sel)

/-- The function `filter_data(location, province, district, sector, schools)`: the four
dropdown criteria applied in sequence, then the school multi-select. -/
def filterData (location province district sector : Option String)
    (schools : Option (List String)) (data : List Record) : List Record :=
  filterSchools schools
    (filterStep sector "All Sectors" Record.sector
      (filterStep district "All Districts" Record.district
        (filterStep province "All Provinces" Record.province
          (filterStep location "All Locations" Record.location data))))

/-- Whether a record passes one dropdown criterion: an absent, empty or
"All X" criterion is always-true for its dimension. -/
def critOK (crit : Option String) (allName : String) (v : String) : Prop :=
  match crit with
  | none => True
  | some s => s = "" ∨ s = allName ∨ v = s

instance (crit : Option String) (allName v : String) : Decidable (critOK crit allName v) := by
  unfold critOK; cases crit <;> infer_instance

/-- Whether a record passes the school multi-select criterion. -/
def schoolsOK (schools : Option (List String)) (v : String) : Prop :=
  match schools with
  | none => True
  | some sel => sel = [] ∨ v ∈ sel

instance (schools : Option (List String)) (v : String) : Decidable (schoolsOK schools v) := by
  unfold schoolsOK; cases schools <;> infer_instance

/-! ### District aggregation and ranking (pages copy/4_district.py) -/

/-- A row of the `district_agg` frame: the aggregate columns the dashboard
reads downstream of `aggregate_by_district`. -/
structure Agg where
  district : String
  province : String
  location : String
  schools : ℕ       -- 'school_code': 'count'
  students : ℚ      -- 'number_of_students': 'sum'
  teachers : ℚ      -- 'number_of_teachers': 'sum'
  infra : ℚ         -- mean index_1_infrastructure_health_index, rounded to 2 dp
  deriving DecidableEq, Repr

/-- Python `round(x, d)` on rationals (ties to even, as for floats). -/
def pyRound (d : ℕ) (q : ℚ) : ℚ :=
  (round (q * 10 ^ d) : ℤ) / 10 ^ d

/-- The group keys of `groupby(['name_of_the_district',
'name_of_the_province', 'location_type'])`, in order of first appearance. -/
def groupKeys (data : List Record) : List (String × String × String) :=
  (data.map (fun r => (r.district, r.province, r.location))).dedup

/-- The rows of the grouped frame before ranking: per key, the school count,
the summed counts and the mean infrastructure index (rounded to 2 decimals,
as `aggregate_by_district` does before sorting). -/
def groupAggregates (data : List Record) : List Agg :=
  (groupKeys data).map (fun k =>
    let grp := data.filter (fun r => (r.district, r.province, r.location) = k)
    { district := k.1, province := k.2.1, location := k.2.2,
      schools := grp.length,
      students := (grp.map (fun r => r.students)).sum,
      teachers := (grp.map (fun r => r.teachers)).sum,
      infra := pyRound 2 ((grp.map (fun r => r.infra)).sum / grp.length) })

/-- Stable descending insertion on the `Infra Index` column: an element is
placed before the first strictly-smaller-or-equal... precisely, before the
first row it weakly dominates, so earlier input rows stay ahead on ties. -/
def insertDesc (x : Agg) : List Agg → List Agg
  | [] => [x]
  | y :: ys => if y.infra ≤ x.infra then x :: y :: ys else y :: insertDesc x ys

/-- The call `sort_values('Infra Index', ascending=False)` as a stable descending
sort. -/
def sortDesc (l : List Agg) : List Agg :=
  l.foldr insertDesc []

/-- The call `district_agg.insert(0, 'Rank', range(1, len + 1))`: rank 1 for the best
row after the descending sort, then 2, 3, ... -/
def rankDistricts (l : List Agg) : List (ℕ × Agg) :=
  (sortDesc l).enum.map (fun p => (p.1 + 1, p.2))

/-- The function `aggregate_by_district` (4_district.py lines 62-104): empty input yields
an empty frame; otherwise group, aggregate, sort descending on the
infrastructure index and attach 1-based ranks. -/
def aggregateByDistrict (data : List Record) : List (ℕ × Agg) :=
  if data = [] then []
  else rankDistricts (groupAggregates data)

/-! ### Gap analysis (4_district.py, `update_gap_chart` / `get_color`) -/

/-- The column `Gap = Infra Index − TARGET` (TARGET = 0.7). -/
def gapOf (value target : ℚ) : ℚ := value - target

/-- The column `Gap_Percent = Gap / TARGET * 100`. -/
def gapPercentOf (value target : ℚ) : ℚ := gapOf value target / target * 100

/-- The helper `get_color` (4_district.py lines 770-782): severity bucket colour from
the gap. -/
def getColor (gap : ℚ) : String :=
  if gap < -(3/10) then "#8b0000"        -- dark red (critical)
  else if gap < -(2/10) then "#d62728"   -- red (severe)
  else if gap < -(1/10) then "#ff7f0e"   -- orange (moderate)
  else if gap < 0 then "#ffc107"         -- yellow (minor)
  else if gap < 1/10 then "#90ee90"      -- light green (good)
  else "#2ca02c"                         -- dark green (excellent)

/-! ### Derived-ratio divisions (C7) -/

/-- Pandas/numpy float division as the dashboard uses it: a zero denominator
does not raise, it produces a non-finite value (`inf` or `NaN`), modelled as
`none`. -/
def pandasDiv (a b : ℚ) : Option ℚ :=
  if b = 0 then none else some (a / b)

/-- The `avg_teacher_classroom` KPI of `calculate_kpis` (part_000 line 93,
1_overview.py line 105): the elementwise series
`number_of_teachers / number_of_classrooms`, then its mean — non-finite as
soon as any record divides by zero classrooms. -/
def avgTeacherClassroom (data : List Record) : Option ℚ :=
  let series := data.map (fun r => pandasDiv r.teachers r.classrooms)
  if series.all (fun x => x.isSome) then
    some (pyRound 1 ((series.map (fun x => x.getD 0)).sum / data.length))
  else none

/-- The "High Teachers" spider-chart axis (4_district.py line 647):
`min(1, Teachers / Students * 100) if Students > 0 else 0` — guarded, always
defined. -/
def teacherAxis (a : Agg) : ℚ :=
  if a.students > 0 then min 1 (a.teachers / a.students * 100) else 0

/-- The toilets gender-gap percentage (part_000 line 822):
`round(abs(boys - girls) / max(boys, girls) * 100, 1) if max(boys, girls) > 0
else 0` — guarded, always defined. -/
def genderGapPct (boys girls : ℚ) : ℚ :=
  if max boys girls > 0 then pyRound 1 (|boys - girls| / max boys girls * 100) else 0

/-! ### Concrete sample records used by witnesses and counterexamples -/

/-- A record every metric of which is in the Good range. -/
def wGood : Record := ⟨"A", "Urban", "P", "D", "S", 40, 30, 8/10, 0, 0, 1, 100, 10, 5⟩

/-- A record that is Urgent (S/C = 55 > 50) and also satisfies an Attention
condition (delayed maintenance). -/
def wBoth : Record := { wGood with school := "B", sc := 55, delayed := 1 }

/-- A record that is Attention only (delayed maintenance). -/
def wAtt : Record := { wGood with school := "C", delayed := 1 }

/-- Eight records, six of them Urgent (S/C = 55) with distinct school
names, two of them Good: exercises the truncation of the urgent list. -/
def wMany : List Record :=
  [{ wGood with school := "U1", sc := 55 }, { wGood with school := "U2", sc := 55 },
   { wGood with school := "U3", sc := 55 }, { wGood with school := "U4", sc := 55 },
   { wGood with school := "U5", sc := 55 }, { wGood with school := "U6", sc := 55 },
   { wGood with school := "G1" }, { wGood with school := "G2" }]

/-- Three district aggregates with infrastructure indices 0.9, 0.5, 0.9 in
input order: the tie between the first and the third exercises the
stable-tie ranking. -/
def aggEx1 : Agg := ⟨"A", "P", "Urban", 1, 0, 0, 9/10⟩

def aggEx2 : Agg := ⟨"B", "P", "Urban", 1, 0, 0, 5/10⟩

def aggEx3 : Agg := ⟨"C", "P", "Urban", 1, 0, 0, 9/10⟩

/-! ### Helper lemmas on the classification cascade -/

lemma classify_urgent_iff (r : Record) : classifyStep r = .urgent ↔ urgentCond r := by
  unfold classifyStep
  split_ifs <;> simp_all

lemma classify_attention_iff (r : Record) :
    classifyStep r = .attention ↔ ¬ urgentCond r ∧ attentionCond r := by
  unfold classifyStep
  split_ifs <;> simp_all

lemma classify_good_iff (r : Record) :
    classifyStep r = .good ↔ ¬ urgentCond r ∧ ¬ attentionCond r := by
  unfold classifyStep
  split_ifs <;> simp_all

lemma urgentIssuesF_ne_nil (r : Record) : urgentIssuesF r ≠ [] ↔ urgentCond r := by
  unfold urgentIssuesF urgentCond
  split_ifs <;> simp_all

lemma attnIssuesF_ne_nil (r : Record) : attnIssuesF r ≠ [] ↔ attentionCond r := by
  unfold attnIssuesF attentionCond
  split_ifs <;> simp_all

lemma mem_urgentSchoolsF {s : String} {data : List Record} :
    s ∈ urgentSchoolsF data ↔ ∃ r ∈ data, urgentIssuesF r ≠ [] ∧ r.school = s := by
  simp [urgentSchoolsF, List.mem_filter]
  tauto

lemma mem_attentionSchoolsF {s : String} {data : List Record} :
    s ∈ attentionSchoolsF data ↔
      ∃ r ∈ data, (r.school ∉ urgentSchoolsF data ∧ attnIssuesF r ≠ []) ∧ r.school = s := by
  simp [attentionSchoolsF, List.mem_filter]
  tauto

lemma urgentIssuesF_subset (r : Record) :
    ∀ s ∈ urgentIssuesF r, s ∈ (["S/C", "S/T", "Infra"] : List String) := by
  unfold urgentIssuesF
  split_ifs <;> simp_all

/-- C8: the empty record set yields three empty partitions from both
`calculate_alerts` variants and an empty aggregate frame, with no failure. -/
theorem spec_c8_empty_input :
    calculateAlerts [] = ([], [], []) ∧
    calculateAlertsFinal [] = ⟨[], [], 0⟩ ∧
    aggregateByDistrict [] = [] :=
  ⟨rfl, rfl, rfl⟩

/-- C5 counterexample: at infra = 0.4 against target 0.7 the gap is exactly
−0.3, and `get_color` does NOT return the critical colour `#8b0000` there
(its critical branch requires `gap < -0.3` strictly), refuting the claim
that the −0.3 boundary belongs to the critical bucket. -/
theorem spec_c5_counterexample :
    gapOf (4/10) (7/10) = -(3/10) ∧ getColor (-(3/10)) ≠ "#8b0000" := by
  constructor
  · norm_num [gapOf]
  · norm_num [getColor] <;> decide

/-- C5 (amended): `gap = value − target` and
`gap_percent = gap / target × 100` with the sign preserved, and the critical
bucket is the strict half-line `gap < −0.3`; at infra = 0.4 versus target
0.7 the gap is exactly −0.3, the gap percent is −300/7 ≈ −42.9 %, and the
colour is the severe red `#d62728`, one bucket above critical. -/
theorem spec_c5_gap :
    (∀ v t : ℚ, gapOf v t = v - t ∧ gapPercentOf v t = (v - t) / t * 100) ∧
    (∀ v t : ℚ, 0 < t → (gapOf v t < 0 ↔ v < t)) ∧
    (∀ g : ℚ, getColor g = "#8b0000" ↔ g < -(3/10)) ∧
    gapOf (4/10) (7/10) = -(3/10) ∧
    gapPercentOf (4/10) (7/10) = -300/7 ∧
    getColor (gapOf (4/10) (7/10)) = "#d62728" := by
  refine ⟨fun v t => ⟨rfl, rfl⟩, fun v t ht => by unfold gapOf; constructor <;> intro h <;> linarith,
    fun g => ?_, by norm_num [gapOf], by norm_num [gapPercentOf, gapOf], ?_⟩
  · unfold getColor
    split_ifs with h1 h2 h3 h4 h5 <;> simp_all
  · norm_num [getColor, gapOf]

/-- C5 witness: the sign-preservation conjunct of `spec_c5_gap`
instantiated at value 0.4, target 0.7. -/
theorem spec_c5_gap_witness : gapOf (4/10) (7/10) < 0 ↔ (4/10 : ℚ) < 7/10 :=
  spec_c5_gap.2.1 (4/10) (7/10) (by norm_num)

/-- C2: a record satisfying both an Urgent and an Attention condition is
classified Urgent only: the cascade returns `urgent`, the final-edition
variant puts its school in the urgent set and never in the attention set,
and every reason attached to its urgent entries is an Urgent reason
(`S/C`, `S/T`, `Infra`) — no Attention reason appears. -/
theorem spec_c2_urgent_precedence (data : List Record) (r : Record) (hr : r ∈ data)
    (hu : urgentCond r) (ha : attentionCond r) :
    classifyStep r = .urgent ∧
    r.school ∈ urgentSchoolsF data ∧
    r.school ∉ attentionSchoolsF data ∧
    (∀ p ∈ urgentListF data, p.1 = r.school →
      ∀ s ∈ p.2, s ∈ (["S/C", "S/T", "Infra"] : List String)) := by
  have hmem : r.school ∈ urgentSchoolsF data :=
    mem_urgentSchoolsF.mpr ⟨r, hr, (urgentIssuesF_ne_nil r).mpr hu, rfl⟩
  refine ⟨(classify_urgent_iff r).mpr hu, hmem, ?_, ?_⟩
  · intro hcon
    obtain ⟨r', _, ⟨hnot, _⟩, hs⟩ := mem_attentionSchoolsF.mp hcon
    exact hnot (hs ▸ hmem)
  · intro p hp _ s hs
    obtain ⟨r', hr', hps⟩ : ∃ r' ∈ data.filter (fun x => urgentIssuesF x ≠ []),
        (r'.school, urgentIssuesF r') = p := List.mem_map.mp hp
    exact urgentIssuesF_subset r' s (by simpa [← hps] using hs)

/-- C2 witness: `spec_c2_urgent_precedence` applied to the concrete record
`wBoth` (S/C = 55 and delayed maintenance) in a three-record data set. -/
theorem spec_c2_urgent_precedence_witness :
    classifyStep wBoth = .urgent ∧
    wBoth.school ∈ urgentSchoolsF [wBoth, wAtt, wGood] ∧
    wBoth.school ∉ attentionSchoolsF [wBoth, wAtt, wGood] ∧
    (∀ p ∈ urgentListF [wBoth, wAtt, wGood], p.1 = wBoth.school →
      ∀ s ∈ p.2, s ∈ (["S/C", "S/T", "Infra"] : List String)) :=
  spec_c2_urgent_precedence [wBoth, wAtt, wGood] wBoth (by simp)
    (Or.inl (by norm_num [wBoth, wGood]))
    (Or.inr (Or.inr (Or.inr (Or.inl (by norm_num [wBoth, wGood])))))

/-- C3: with all other metrics in the Good range, the student-classroom
boundaries classify as 45 → Good, 45.01 → Attention, 50 → Attention,
50.01 → Urgent, and the student-teacher boundaries as 35 → Good,
35.01 → Attention, 40 → Attention, 40.01 → Urgent. -/
theorem spec_c3_boundaries (r : Record)
    (hst : r.st ≤ 35) (hinfra : 7/10 ≤ r.infra) (hd : r.delayed ≠ 1)
    (hs : r.safety ≠ 1) (hf : r.fence ≠ 0) (hsc : r.sc ≤ 45) :
    classifyStep { r with sc := 45 } = .good ∧
    classifyStep { r with sc := 4501/100 } = .attention ∧
    classifyStep { r with sc := 50 } = .attention ∧
    classifyStep { r with sc := 5001/100 } = .urgent ∧
    classifyStep { r with st := 35 } = .good ∧
    classifyStep { r with st := 3501/100 } = .attention ∧
    classifyStep { r with st := 40 } = .attention ∧
    classifyStep { r with st := 4001/100 } = .urgent := by
  refine ⟨(classify_good_iff _).mpr ⟨?_, ?_⟩, (classify_attention_iff _).mpr ⟨?_, ?_⟩,
    (classify_attention_iff _).mpr ⟨?_, ?_⟩, (classify_urgent_iff _).mpr ?_,
    (classify_good_iff _).mpr ⟨?_, ?_⟩, (classify_attention_iff _).mpr ⟨?_, ?_⟩,
    (classify_attention_iff _).mpr ⟨?_, ?_⟩, (classify_urgent_iff _).mpr ?_⟩ <;>
    simp only [urgentCond, attentionCond]
  · push_neg
    exact ⟨by norm_num, by linarith, by linarith⟩
  · push_neg
    exact ⟨by intro h; norm_num at h, by intro h; linarith, fun h => hinfra, hd, hs, hf⟩
  · push_neg
    exact ⟨by norm_num, by linarith, by linarith⟩
  · exact Or.inl ⟨by norm_num, by norm_num⟩
  · push_neg
    exact ⟨by norm_num, by linarith, by linarith⟩
  · exact Or.inl ⟨by norm_num, by norm_num⟩
  · exact Or.inl (by norm_num)
  · push_neg
    exact ⟨by linarith, by norm_num, by linarith⟩
  · push_neg
    exact ⟨by intro h; linarith, by intro h; norm_num at h, fun h => hinfra, hd, hs, hf⟩
  · push_neg
    exact ⟨by linarith, by norm_num, by linarith⟩
  · exact Or.inr (Or.inl ⟨by norm_num, by norm_num⟩)
  · push_neg
    exact ⟨by linarith, by norm_num, by linarith⟩
  · exact Or.inr (Or.inl ⟨by norm_num, by norm_num⟩)
  · exact Or.inr (Or.inl (by norm_num))

/-- C3 witness: `spec_c3_boundaries` applied to the concrete Good-range
record `wGood`. -/
theorem spec_c3_boundaries_witness :
    classifyStep { wGood with sc := 45 } = .good ∧
    classifyStep { wGood with sc := 4501/100 } = .attention ∧
    classifyStep { wGood with sc := 50 } = .attention ∧
    classifyStep { wGood with sc := 5001/100 } = .urgent ∧
    classifyStep { wGood with st := 35 } = .good ∧
    classifyStep { wGood with st := 3501/100 } = .attention ∧
    classifyStep { wGood with st := 40 } = .attention ∧
    classifyStep { wGood with st := 4001/100 } = .urgent :=
  spec_c3_boundaries wGood (by norm_num [wGood]) (by norm_num [wGood])
    (by norm_num [wGood]) (by norm_num [wGood]) (by norm_num [wGood]) (by norm_num [wGood])

/-- C10: a record the cascade classifies Good necessarily satisfies all
three Good-range conditions (S/C ≤ 45, S/T ≤ 35, infra ≥ 0.7), so its
"Why Good" list is always exactly `[S/C≤45, S/T≤35, Infra≥0.7]`. -/
theorem spec_c10_why_good (r : Record) (h : classifyStep r = .good) :
    r.sc ≤ 45 ∧ r.st ≤ 35 ∧ 7/10 ≤ r.infra ∧
    whyGood r = ["S/C≤45", "S/T≤35", "Infra≥0.7"] := by
  obtain ⟨hu, ha⟩ := (classify_good_iff r).mp h
  unfold urgentCond at hu
  unfold attentionCond at ha
  push_neg at hu ha
  obtain ⟨hu1, hu2, hu3⟩ := hu
  obtain ⟨ha1, ha2, ha3, -, -, -⟩ := ha
  have hsc : r.sc ≤ 45 := by
    by_contra hcon
    push_neg at hcon
    exact absurd (ha1 hcon) (by push_neg; linarith)
  have hst : r.st ≤ 35 := by
    by_contra hcon
    push_neg at hcon
    exact absurd (ha2 hcon) (by push_neg; linarith)
  have hin : 7/10 ≤ r.infra := by
    by_contra hcon
    push_neg at hcon
    exact absurd (ha3 (by linarith)) (by push_neg; linarith)
  refine ⟨hsc, hst, hin, ?_⟩
  unfold whyGood
  rw [if_pos hsc, if_pos hst, if_pos hin]
  rfl

/-- C10 witness: `spec_c10_why_good` applied to the concrete Good record
`wGood`. -/
theorem spec_c10_why_good_witness :
    wGood.sc ≤ 45 ∧ wGood.st ≤ 35 ∧ 7/10 ≤ wGood.infra ∧
    whyGood wGood = ["S/C≤45", "S/T≤35", "Infra≥0.7"] :=
  spec_c10_why_good wGood (by
    rw [classify_good_iff]
    norm_num [urgentCond, attentionCond, wGood])

lemma mem_filterStep {crit : Option String} {allName : String} {proj : Record → String}
    {l : List Record} {r : Record} :
    r ∈ filterStep crit allName proj l ↔ r ∈ l ∧ critOK crit allName (proj r) := by
  unfold filterStep critOK
  cases crit with
  | none => simp
  | some s =>
    dsimp only
    split_ifs with h
    · rcases h with h | h <;> simp [h]
    · push_neg at h
      simp [List.mem_filter, h.1, h.2]

lemma mem_filterSchools {schools : Option (List String)} {l : List Record} {r : Record} :
    r ∈ filterSchools schools l ↔ r ∈ l ∧ schoolsOK schools r.school := by
  unfold filterSchools schoolsOK
  cases schools with
  | none => simp
  | some sel =>
    dsimp only
    split_ifs with h
    · simp [h]
    · simp [List.mem_filter, h]

/-- C6: `filter_data` returns exactly the records satisfying the
conjunction of all present criteria — each absent, empty or "All X"
criterion is always-true for its dimension — and a province value that
matches no record yields the empty list rather than an error. -/
theorem spec_c6_filter (location province district sector : Option String)
    (schools : Option (List String)) (data : List Record) :
    (∀ r, r ∈ filterData location province district sector schools data ↔
      r ∈ data ∧
      critOK location "All Locations" r.location ∧
      critOK province "All Provinces" r.province ∧
      critOK district "All Districts" r.district ∧
      critOK sector "All Sectors" r.sector ∧
      schoolsOK schools r.school) ∧
    (∀ s : String, province = some s → s ≠ "" → s ≠ "All Provinces" →
      (∀ r ∈ data, r.province ≠ s) →
      filterData location province district sector schools data = []) := by
  have hchar : ∀ r, r ∈ filterData location province district sector schools data ↔
      r ∈ data ∧
      critOK location "All Locations" r.location ∧
      critOK province "All Provinces" r.province ∧
      critOK district "All Districts" r.district ∧
      critOK sector "All Sectors" r.sector ∧
      schoolsOK schools r.school := by
    intro r
    unfold filterData
    rw [mem_filterSchools, mem_filterStep, mem_filterStep, mem_filterStep, mem_filterStep]
    tauto
  refine ⟨hchar, fun s hps hne hall habs => ?_⟩
  rw [List.eq_nil_iff_forall_not_mem]
  intro r hmem
  obtain ⟨hrd, -, hprov, -⟩ := (hchar r).mp hmem
  rw [hps] at hprov
  rcases hprov with h | h | h
  · exact hne h
  · exact hall h
  · exact habs r hrd h

/-- C6 witness: `spec_c6_filter` on a one-record data set with an unknown
province value "Px" — the characterization at `wGood` and the empty result. -/
theorem spec_c6_filter_witness :
    (wGood ∈ filterData none (some "Px") none none none [wGood] ↔
      wGood ∈ [wGood] ∧
      critOK none "All Locations" wGood.location ∧
      critOK (some "Px") "All Provinces" wGood.province ∧
      critOK none "All Districts" wGood.district ∧
      critOK none "All Sectors" wGood.sector ∧
      schoolsOK none wGood.school) ∧
    filterData none (some "Px") none none none [wGood] = [] :=
  ⟨(spec_c6_filter none (some "Px") none none none [wGood]).1 wGood,
   (spec_c6_filter none (some "Px") none none none [wGood]).2 "Px" rfl
     (by decide) (by decide) (by intro r hr; simp at hr; subst hr; simp [wGood])⟩

/-- C7 (the claim fails in `calculate_kpis`): the spider-chart teacher axis
and the toilets gender gap guard their zero denominators with the sentinel
0, but `avg_teacher_classroom` divides `number_of_teachers` by
`number_of_classrooms` unguarded, so a single record with 4 teachers and 0
classrooms makes the returned KPI non-finite (`none` models the `inf`/`NaN`
pandas produces). -/
theorem spec_c7_division :
    avgTeacherClassroom [{ wGood with teachers := 4, classrooms := 0 }] = none ∧
    teacherAxis ⟨"D", "P", "U", 1, 0, 4, 1/2⟩ = 0 ∧
    genderGapPct 0 0 = 0 := by
  refine ⟨?_, ?_, ?_⟩
  · norm_num [avgTeacherClassroom, pandasDiv, wGood]
  · norm_num [teacherAxis]
  · norm_num [genderGapPct]

/-- C9: the final-edition alert structure truncates the urgent and
attention lists to at most 5 entries, while `good` stays a full count: on
the 8-record set `wMany` (6 urgent schools, 2 good) the result keeps only 5
urgent entries yet reports `good = 2`, so the visible list lengths plus
`good` (5 + 0 + 2 = 7) do not sum to the input size 8. -/
theorem spec_c9_truncation :
    (∀ data : List Record,
      (calculateAlertsFinal data).urgent.length ≤ 5 ∧
      (calculateAlertsFinal data).attention.length ≤ 5) ∧
    calculateAlertsFinal wMany =
      ⟨[("U1", ["S/C"]), ("U2", ["S/C"]), ("U3", ["S/C"]), ("U4", ["S/C"]), ("U5", ["S/C"])],
       [], 2⟩ ∧
    ((calculateAlertsFinal wMany).urgent.length : ℤ) +
        (calculateAlertsFinal wMany).attention.length +
        (calculateAlertsFinal wMany).good ≠ (wMany.length : ℤ) := by
  have hlen : ∀ data : List Record,
      (calculateAlertsFinal data).urgent.length ≤ 5 ∧
      (calculateAlertsFinal data).attention.length ≤ 5 := by
    intro data
    unfold calculateAlertsFinal
    split_ifs
    · simp
    · constructor <;> simp [List.length_take]
  have hconc : calculateAlertsFinal wMany =
      ⟨[("U1", ["S/C"]), ("U2", ["S/C"]), ("U3", ["S/C"]), ("U4", ["S/C"]), ("U5", ["S/C"])],
       [], 2⟩ := by
    norm_num [calculateAlertsFinal, urgentListF, attentionListF, urgentSchoolsF,
      attentionSchoolsF, urgentIssuesF, attnIssuesF, List.filter_cons, wMany, wGood]
    simp
  refine ⟨hlen, hconc, ?_⟩
  rw [hconc]
  norm_num [wMany]

/-! ### Helper lemmas for the partition count (C1) -/

lemma length_three_way {α : Type} (p q : α → Bool) (l : List α) :
    l.length = (l.filter p).length + (l.filter (fun x => !p x && q x)).length +
      (l.filter (fun x => !p x && !q x)).length := by
  induction l with
  | nil => simp
  | cons x xs ih =>
    cases hp : p x <;> cases hq : q x <;> simp [List.filter_cons, hp, hq] <;> omega

lemma mem_urgentSchoolsF_iff_of_nodup {data : List Record} {r : Record}
    (hnd : (data.map Record.school).Nodup) (hr : r ∈ data) :
    r.school ∈ urgentSchoolsF data ↔ urgentIssuesF r ≠ [] := by
  constructor
  · intro h
    obtain ⟨r', hr', hu', hs⟩ := mem_urgentSchoolsF.mp h
    have : r' = r := List.inj_on_of_nodup_map hnd hr' hr hs
    exact this ▸ hu'
  · intro h
    exact mem_urgentSchoolsF.mpr ⟨r, hr, h, rfl⟩

/-- C1: the final-edition classification partitions the schools — the
urgent and attention school sets are disjoint, every record's school falls
in the urgent set, the attention set, or has no issue of either tier, a
no-issue record's school lies in neither set (assuming distinct school
names), and the reported `good` count, computed from the set cardinalities,
equals the exact number of no-issue records (never the possibly-truncated
list lengths). -/
theorem spec_c1_partition (data : List Record)
    (hnd : (data.map Record.school).Nodup) :
    urgentSchoolsF data ∩ attentionSchoolsF data = ∅ ∧
    (∀ r ∈ data, r.school ∈ urgentSchoolsF data ∨ r.school ∈ attentionSchoolsF data ∨
      (urgentIssuesF r = [] ∧ attnIssuesF r = [])) ∧
    (∀ r ∈ data, urgentIssuesF r = [] ∧ attnIssuesF r = [] →
      r.school ∉ urgentSchoolsF data ∧ r.school ∉ attentionSchoolsF data) ∧
    (calculateAlertsFinal data).good =
      ((data.filter (fun r => urgentIssuesF r = [] ∧ attnIssuesF r = [])).length : ℤ) := by
  have hinj := List.inj_on_of_nodup_map hnd
  refine ⟨?_, ?_, ?_, ?_⟩
  · ext s
    simp only [Finset.mem_inter, Finset.not_mem_empty, iff_false, not_and]
    intro hu ha
    obtain ⟨r', _, ⟨hnotin, _⟩, hs⟩ := mem_attentionSchoolsF.mp ha
    exact hnotin (hs ▸ hu)
  · intro r hr
    by_cases h1 : r.school ∈ urgentSchoolsF data
    · exact Or.inl h1
    by_cases h2 : attnIssuesF r = []
    · refine Or.inr (Or.inr ⟨?_, h2⟩)
      by_contra hcon
      exact h1 (mem_urgentSchoolsF.mpr ⟨r, hr, hcon, rfl⟩)
    · exact Or.inr (Or.inl (mem_attentionSchoolsF.mpr ⟨r, hr, ⟨h1, h2⟩, rfl⟩))
  · rintro r hr ⟨hu, ha⟩
    constructor
    · intro hcon
      obtain ⟨r', hr', hu', hs⟩ := mem_urgentSchoolsF.mp hcon
      exact hu' (by rw [hinj hr' hr hs, hu])
    · intro hcon
      obtain ⟨r', hr', ⟨-, ha'⟩, hs⟩ := mem_attentionSchoolsF.mp hcon
      exact ha' (by rw [hinj hr' hr hs, ha])
  · rcases eq_or_ne data [] with hnil | hnil
    · subst hnil
      rfl
    have hcardU : (urgentSchoolsF data).card =
        (data.filter (fun r => urgentIssuesF r ≠ [])).length := by
      have hsub : ((data.filter (fun r => urgentIssuesF r ≠ [])).map Record.school).Sublist
          (data.map Record.school) :=
        List.Sublist.map Record.school (List.filter_sublist data)
      rw [urgentSchoolsF, List.toFinset_card_of_nodup (List.Nodup.sublist hsub hnd),
        List.length_map]
    have hattn : data.filter
          (fun r => r.school ∉ urgentSchoolsF data ∧ attnIssuesF r ≠ []) =
        data.filter (fun r => urgentIssuesF r = [] ∧ attnIssuesF r ≠ []) := by
      apply List.filter_congr
      intro x hx
      have := mem_urgentSchoolsF_iff_of_nodup hnd hx
      simp only [decide_eq_decide]
      tauto
    have hcardA : (attentionSchoolsF data).card =
        (data.filter (fun r => urgentIssuesF r = [] ∧ attnIssuesF r ≠ [])).length := by
      have hsub : ((data.filter
            (fun r => r.school ∉ urgentSchoolsF data ∧ attnIssuesF r ≠ [])).map
            Record.school).Sublist (data.map Record.school) :=
        List.Sublist.map Record.school (List.filter_sublist data)
      rw [attentionSchoolsF, List.toFinset_card_of_nodup (List.Nodup.sublist hsub hnd),
        List.length_map, hattn]
    have hthree := length_three_way (fun r => decide (urgentIssuesF r ≠ []))
      (fun r => decide (attnIssuesF r ≠ [])) data
    have hb1 : data.filter (fun r => urgentIssuesF r = [] ∧ attnIssuesF r ≠ []) =
        data.filter (fun x => !decide (urgentIssuesF x ≠ []) && decide (attnIssuesF x ≠ [])) := by
      apply List.filter_congr
      intro x _
      simp [decide_not]
    have hb2 : data.filter (fun r => urgentIssuesF r = [] ∧ attnIssuesF r = []) =
        data.filter (fun x => !decide (urgentIssuesF x ≠ []) && !decide (attnIssuesF x ≠ [])) := by
      apply List.filter_congr
      intro x _
      simp [decide_not]
    rw [calculateAlertsFinal, if_neg hnil]
    rw [hcardU, hcardA, hb1, hb2]
    rw [hthree]
    push_cast
    ring

/-- C1 witness: `spec_c1_partition` on the concrete three-record set
`[wBoth, wAtt, wGood]` (one urgent, one attention, one good school). -/
theorem spec_c1_partition_witness :
    urgentSchoolsF [wBoth, wAtt, wGood] ∩ attentionSchoolsF [wBoth, wAtt, wGood] = ∅ ∧
    (∀ r ∈ [wBoth, wAtt, wGood],
      r.school ∈ urgentSchoolsF [wBoth, wAtt, wGood] ∨
      r.school ∈ attentionSchoolsF [wBoth, wAtt, wGood] ∨
      (urgentIssuesF r = [] ∧ attnIssuesF r = [])) ∧
    (∀ r ∈ [wBoth, wAtt, wGood], urgentIssuesF r = [] ∧ attnIssuesF r = [] →
      r.school ∉ urgentSchoolsF [wBoth, wAtt, wGood] ∧
      r.school ∉ attentionSchoolsF [wBoth, wAtt, wGood]) ∧
    (calculateAlertsFinal [wBoth, wAtt, wGood]).good =
      (([wBoth, wAtt, wGood].filter
        (fun r => urgentIssuesF r = [] ∧ attnIssuesF r = [])).length : ℤ) :=
  spec_c1_partition [wBoth, wAtt, wGood] (by simp [wBoth, wAtt, wGood])

/-! ### Helper lemmas for the ranking (C4) -/

lemma mem_insertDesc {z x : Agg} {l : List Agg} :
    z ∈ insertDesc x l ↔ z = x ∨ z ∈ l := by
  induction l with
  | nil => simp [insertDesc]
  | cons y ys ih =>
    unfold insertDesc
    split_ifs <;> simp [ih] <;> tauto

lemma insertDesc_pairwise {x : Agg} {l : List Agg}
    (h : l.Pairwise (fun a b => b.infra ≤ a.infra)) :
    (insertDesc x l).Pairwise (fun a b => b.infra ≤ a.infra) := by
  induction l with
  | nil => simp [insertDesc]
  | cons y ys ih =>
    rw [List.pairwise_cons] at h
    obtain ⟨hy, hys⟩ := h
    unfold insertDesc
    split_ifs with hyx
    · refine List.Pairwise.cons ?_ (List.Pairwise.cons hy hys)
      intro z hz
      rcases List.mem_cons.mp hz with hz | hz
      · exact hz ▸ hyx
      · exact le_trans (hy z hz) hyx
    · refine List.Pairwise.cons ?_ (ih hys)
      intro z hz
      rcases mem_insertDesc.mp hz with hz | hz
      · push_neg at hyx
        exact hz ▸ le_of_lt hyx
      · exact hy z hz

lemma sortDesc_pairwise (l : List Agg) :
    (sortDesc l).Pairwise (fun a b => b.infra ≤ a.infra) := by
  induction l with
  | nil => exact List.Pairwise.nil
  | cons x xs ih => exact insertDesc_pairwise ih

lemma insertDesc_length (x : Agg) (l : List Agg) :
    (insertDesc x l).length = l.length + 1 := by
  induction l with
  | nil => rfl
  | cons y ys ih =>
    unfold insertDesc
    split_ifs <;> simp [ih]

lemma sortDesc_length (l : List Agg) : (sortDesc l).length = l.length := by
  induction l with
  | nil => rfl
  | cons x xs ih =>
    show (insertDesc x (sortDesc xs)).length = xs.length + 1
    rw [insertDesc_length, ih]

/-- C4: `aggregate_by_district`'s ranking sorts the aggregates descending
on the infrastructure index and attaches the 1-based ranks 1..n in that
order; ties keep the input order, so aggregates with indices
[0.9, 0.5, 0.9] receive, in input order, the ranks [1, 3, 2]. -/
theorem spec_c4_ranking :
    (∀ l : List Agg,
      List.Pairwise (fun a b : Agg => b.infra ≤ a.infra) (sortDesc l) ∧
      (rankDistricts l).map Prod.fst = List.range' 1 l.length) ∧
    rankDistricts [aggEx1, aggEx2, aggEx3] = [(1, aggEx1), (2, aggEx3), (3, aggEx2)] := by
  constructor
  · intro l
    refine ⟨sortDesc_pairwise l, ?_⟩
    rw [rankDistricts, List.map_map]
    have hcomp : (Prod.fst ∘ fun p : ℕ × Agg => (p.1 + 1, p.2)) =
        (fun n => 1 + n) ∘ Prod.fst := by
      funext p
      simp [Nat.add_comm]
    rw [hcomp, ← List.map_map, List.enum_map_fst, ← List.range'_eq_map_range,
      sortDesc_length]
  · norm_num [rankDistricts, sortDesc, insertDesc, aggEx1, aggEx2, aggEx3, List.enum]

end SCMS
